import Mathlib

/-!
Shallow embedding of the message-wall component of `src/app.py`:
the `messages` store, the abuse filter `is_content_abusive`, and the
handlers `get_messages`, `post_message`, `delete_message`,
`post_news_to_wall` and `ai_post`.

Modelling conventions:
* the SQL `messages` table is a `List Post`; `uuid.uuid4()` values and
  `time.time()` values are passed in as parameters (`newId`, `now`);
  timestamps are modelled at integer resolution (`Int`), at which the
  `int()` truncation in `expires_in` is the identity;
* the two database branches (PostgreSQL / SQLite) run the same statements
  in every handler except `get_messages` and are modelled once there;
  `get_messages` serializes its rows differently per branch — the SQLite
  branch calls `.get` on `sqlite3.Row`, which has no such method — and is
  therefore modelled per branch (`get_messages`, `get_messages_sqlite`);
* Python `str.strip()`, `str.lower()`, `str.split()` are modelled on the
  code-point list of the string (`pyStrip`, `pyLower`, `pyWords`);
* the float comparisons `caps_ratio > 0.8` and `count > len(words) * 0.5`
  are exact at these operand sizes and are modelled as the equivalent
  integer comparisons `5 * caps > 4 * letters` and `2 * count > words`.
-/

namespace Wall

/-- TTL constant `MESSAGE_TTL = 7 * 24 * 60 * 60` seconds (src/app.py line 32). -/
def MESSAGE_TTL : Int := 7 * 24 * 60 * 60

/-- Length bound `MAX_LENGTH = 280` (src/app.py line 33). -/
def MAX_LENGTH : Nat := 280

/-- One row of the `messages` table (columns `id, text, timestamp, image_url, is_ai`). -/
structure Post where
  id : String
  text : String
  timestamp : Int
  image_url : Option String
  is_ai : Bool
deriving DecidableEq

/-- One JSON object of the `GET /messages` response (src/app.py lines 382-395). -/
structure PostView where
  id : String
  text : String
  timestamp : Int
  image_url : Option String
  is_ai : Bool
  expires_in : Int
deriving DecidableEq

/-- HTTP outcome of a handler: `ok` is the 200 `{"status": "ok"}` body, `err msg`
is a 400 response carrying the error message `msg`. -/
inductive Resp where
  | ok : Resp
  | err : String → Resp
deriving DecidableEq

/-- Python `str.strip()`: drop whitespace at both ends. -/
def pyStrip (s : String) : String :=
  ⟨((s.data.dropWhile Char.isWhitespace).reverse.dropWhile Char.isWhitespace).reverse⟩

/-- Python `str.lower()`, modelled per code point. -/
def pyLower (s : String) : String :=
  ⟨s.data.map Char.toLower⟩

/-- Accumulator loop behind `pyWords`: split on whitespace runs, dropping empty pieces. -/
def splitWsAux : List Char → List Char → List (List Char)
  | [], acc => if acc.isEmpty then [] else [acc.reverse]
  | c :: cs, acc =>
    if c.isWhitespace then
      if acc.isEmpty then splitWsAux cs [] else acc.reverse :: splitWsAux cs []
    else
      splitWsAux cs (c :: acc)

/-- Python `str.split()` with no argument (used for the word list in the filter). -/
def pyWords (s : String) : List (List Char) :=
  splitWsAux s.data []

/-- Repeated-character scan of src/app.py lines 181-182: some window of five
consecutive characters is constant (`len(set(text[i:i+5])) == 1`). -/
def hasRun5 : List Char → Bool
  | a :: b :: c :: d :: e :: rest =>
    (a == b && b == c && c == d && d == e) || hasRun5 (b :: c :: d :: e :: rest)
  | _ => false

/-- Substring test on code-point lists, modelling SQL `text LIKE '%url%'`
for a wildcard-free needle (src/app.py lines 244-251). -/
def containsSub (needle : List Char) : List Char → Bool
  | [] => needle.isEmpty
  | c :: rest => needle.isPrefixOf (c :: rest) || containsSub needle rest

/-- Modelled from the spec: the profanity dictionary lives in the external
`better_profanity` package and is not part of src/; the spec fixes only
"dictionary-based profanity match" with library-dependent policy. The filter
below therefore takes the dictionary check as a parameter `pf`; `noProfanity`
is the dictionary instance that matches nothing, used for concrete evaluation
at inputs made of ordinary non-profane English words. -/
def noProfanity : String → Bool := fun _ => false

/-- Function `is_content_abusive` of src/app.py lines 164-194, parameterised by
the external profanity check `pf` (`profanity.contains_profanity`). The four
checks run in order; each can only return `True` early, so any single heuristic
firing suffices. -/
def is_content_abusive (pf : String → Bool) (text : String) : Bool :=
  if text.data = [] then false
  else if pf text then true
  else
    let letters := text.data.filter Char.isAlpha
    if letters ≠ [] ∧ 5 * (letters.filter Char.isUpper).length > 4 * letters.length ∧
        letters.length > 5 then true
    else if hasRun5 text.data then true
    else
      let ws := pyWords (pyLower text)
      if 5 < ws.length ∧ ws.any (fun w => decide (ws.length < 2 * ws.count w)) then true
      else false

/-- Handler `post_message` for `POST /messages` (src/app.py lines 400-435).
`rawText` and `rawImage` are the `text` and `image_url` fields of the request
body; the result is the HTTP outcome together with the store after the call. -/
def post_message (pf : String → Bool) (newId : String) (now : Int)
    (rawText rawImage : String) (store : List Post) : Resp × List Post :=
  let text := pyStrip rawText
  if text.data = [] then (Resp.err "Message is empty", store)
  else if text.length > MAX_LENGTH then (Resp.err "Max 280 characters", store)
  else if is_content_abusive pf text then
    (Resp.err "Your message contains inappropriate content and cannot be posted. Please review our community guidelines.", store)
  else
    let image_url := if (pyStrip rawImage).data = [] then none else some (pyStrip rawImage)
    (Resp.ok, store ++ [{ id := newId, text := text, timestamp := now,
                          image_url := image_url, is_ai := false }])

/-- Ordering relation behind `ORDER BY timestamp DESC`: `a` comes no later than
`b` in the output when `b.timestamp ≤ a.timestamp`. -/
def tsGE (a b : Post) : Prop := b.timestamp ≤ a.timestamp

instance : DecidableRel tsGE := fun a b => inferInstanceAs (Decidable (b.timestamp ≤ a.timestamp))

instance : IsTotal Post tsGE := ⟨fun a b => Int.le_total b.timestamp a.timestamp⟩

instance : IsTrans Post tsGE := ⟨fun _ _ _ hab hbc => le_trans hbc hab⟩

/-- Remaining lifetime `max(0, int(MESSAGE_TTL - (now - timestamp)))` of
src/app.py lines 385 and 394 (at integer time resolution `int` is the identity). -/
def expiresIn (now ts : Int) : Int := max 0 (MESSAGE_TTL - (now - ts))

/-- JSON object built for one row by `get_messages`. -/
def viewOf (now : Int) (p : Post) : PostView :=
  { id := p.id, text := p.text, timestamp := p.timestamp, image_url := p.image_url,
    is_ai := p.is_ai, expires_in := expiresIn now p.timestamp }

/-- PostgreSQL branch of handler `get_messages` for `GET /messages` (src/app.py
lines 375-386): delete every row with `timestamp < now - MESSAGE_TTL`, commit,
then return the rest ordered by timestamp descending, each row extended with
`expires_in`. Result: the store after the sweep and the JSON list. The SQLite
branch serializes differently and is modelled by `get_messages_sqlite`. -/
def get_messages (now : Int) (store : List Post) : List Post × List PostView :=
  let cutoff := now - MESSAGE_TTL
  let kept := store.filter (fun p => !(decide (p.timestamp < cutoff)))
  (kept, (List.insertionSort tsGE kept).map (viewOf now))

/-- Outcome of the SQLite branch of `get_messages`: `ok` carries the serialized
JSON list, `serverError` is the HTTP 500 produced by an uncaught exception. -/
inductive SqliteGet where
  | ok : List PostView → SqliteGet
  | serverError : SqliteGet
deriving DecidableEq

/-- SQLite branch of handler `get_messages` (src/app.py lines 387-395). The
connection sets `conn.row_factory = sqlite3.Row` (line 51) and `sqlite3.Row`
has no `.get` method, so serializing any surviving row raises AttributeError
at `r.get("is_ai", False)` (line 393); the `with conn:` block then rolls back
the DELETE sweep and the endpoint answers 500 with the store unchanged. Only
an empty result set is serialized successfully. -/
def get_messages_sqlite (now : Int) (store : List Post) : List Post × SqliteGet :=
  let cutoff := now - MESSAGE_TTL
  let kept := store.filter (fun p => !(decide (p.timestamp < cutoff)))
  if kept = [] then (kept, SqliteGet.ok []) else (store, SqliteGet.serverError)

/-- Handler `delete_message` for `DELETE /messages/{id}` (src/app.py lines
438-452): `DELETE FROM messages WHERE id = ?`, then `{"status": "ok"}`. -/
def delete_message (messageId : String) (store : List Post) : Resp × List Post :=
  (Resp.ok, store.filter (fun p => !(decide (p.id = messageId))))

/-- Function `post_news_to_wall` (src/app.py lines 227-277). Each fetched
article is a triple of the `uuid.uuid4()` allotted to it, its title and its
URL; the title is sliced to 300 characters, empty titles or URLs are skipped,
an article whose URL already occurs as a substring of some stored text is
skipped, and otherwise a post with text `"📰 " + title + "\n" + url` and
`is_ai = TRUE` is inserted. -/
def post_news_to_wall (now : Int) : List (String × String × String) → List Post → List Post
  | [], store => store
  | (newId, rawTitle, url) :: rest, store =>
    let title : String := ⟨rawTitle.data.take 300⟩
    if title.data = [] ∨ url.data = [] then post_news_to_wall now rest store
    else if store.any (fun p => containsSub url.data p.text.data) then
      post_news_to_wall now rest store
    else
      post_news_to_wall now rest
        (store ++ [{ id := newId, text := "📰 " ++ title ++ "\n" ++ url, timestamp := now,
                     image_url := none, is_ai := true }])

/-- Fallback text of the `/ai-post` handler (src/app.py line 502); `Char.ofNat 39`
is the ASCII apostrophe. -/
def AI_FALLBACK : String :=
  "Did you know? Technology is evolving faster than ever. What" ++
    String.singleton (Char.ofNat 39) ++ "s your take on AI?"

/-- Handler `ai_post` for `POST /ai-post` (src/app.py lines 482-526), given the
model completion `generated` (already a string; `.strip()` is applied as in the
code). Empty or over-length completions are replaced by `AI_FALLBACK`; the post
is inserted with `is_ai = TRUE` and the posted text is returned. -/
def ai_post (newId : String) (now : Int) (generated : String) (store : List Post) :
    List Post × String :=
  let text0 := pyStrip generated
  let text := if text0.data = [] ∨ text0.length > MAX_LENGTH then AI_FALLBACK else text0
  (store ++ [{ id := newId, text := text, timestamp := now, image_url := none, is_ai := true }],
   text)

/-! ### Helper lemmas -/

theorem hasRun5_cons (a : Char) {l : List Char} (h : hasRun5 l = true) :
    hasRun5 (a :: l) = true := by
  match l with
  | [] | [_] | [_, _] | [_, _, _] | [_, _, _, _] => simp [hasRun5] at h
  | b :: c :: d :: e :: f :: rest =>
    simp only [hasRun5, Bool.or_eq_true] at h ⊢
    exact Or.inr h

theorem hasRun5_replicate (c : Char) (l2 : List Char) :
    hasRun5 (List.replicate 5 c ++ l2) = true := by
  simp [List.replicate, hasRun5]

theorem hasRun5_of_window (c : Char) :
    ∀ l1 l2 : List Char, hasRun5 (l1 ++ (List.replicate 5 c ++ l2)) = true
  | [], l2 => hasRun5_replicate c l2
  | a :: l1, l2 => hasRun5_cons a (hasRun5_of_window c l1 l2)

theorem abusive_nil (pf : String → Bool) {s : String} (h : s.data = []) :
    is_content_abusive pf s = false := by
  simp [is_content_abusive, h]

theorem abusive_of_hasRun5 (pf : String → Bool) {s : String} (h : hasRun5 s.data = true) :
    is_content_abusive pf s = true := by
  have hne : ¬ s.data = [] := by
    intro he
    rw [he] at h
    simp [hasRun5] at h
  simp [is_content_abusive, hne, h]

theorem abusive_of_wordRep (pf : String → Bool) {s : String}
    (h5 : 5 < (pyWords (pyLower s)).length)
    (hw : (pyWords (pyLower s)).any
      (fun w => decide ((pyWords (pyLower s)).length < 2 * (pyWords (pyLower s)).count w)) = true) :
    is_content_abusive pf s = true := by
  have hne : ¬ s.data = [] := by
    intro he
    have hl : pyLower s = ⟨[]⟩ := by simp [pyLower, he]
    rw [hl] at h5
    simp [pyWords, splitWsAux] at h5
  simp [is_content_abusive, hne, h5, hw]

/-! ### Claim theorems -/

/-- C6: every string containing a window of five consecutive identical characters
(its code-point list splits as `l1 ++ replicate 5 c ++ l2`) is classified abusive
by `is_content_abusive`, for every profanity dictionary and regardless of the
rest of the string. -/
theorem repeated_char_window_abusive (pf : String → Bool) (s : String) (c : Char)
    (l1 l2 : List Char) (h : s.data = l1 ++ (List.replicate 5 c ++ l2)) :
    is_content_abusive pf s = true := by
  apply abusive_of_hasRun5 pf
  rw [h]
  exact hasRun5_of_window c l1 l2

/-- Witness for C6 at the five-character input made of letters a. -/
theorem repeated_char_window_abusive_witness :
    ("aaaaa" : String).data = [] ++ (List.replicate 5 'a' ++ []) ∧
      is_content_abusive noProfanity "aaaaa" = true :=
  ⟨by decide, repeated_char_window_abusive noProfanity "aaaaa" 'a' [] [] (by decide)⟩

/-- C7: every string whose (lowercased, whitespace-split) word list has more than
five words, one word occurring more often than half the total word count, is
classified abusive by `is_content_abusive`, for every profanity dictionary. -/
theorem word_repetition_abusive (pf : String → Bool) (s : String)
    (h5 : 5 < (pyWords (pyLower s)).length)
    (hw : ∃ w ∈ pyWords (pyLower s),
      (pyWords (pyLower s)).length < 2 * (pyWords (pyLower s)).count w) :
    is_content_abusive pf s = true := by
  apply abusive_of_wordRep pf h5
  rw [List.any_eq_true]
  rcases hw with ⟨w, hmem, hcnt⟩
  exact ⟨w, hmem, by simpa using hcnt⟩

/-- Witness for C7: six words of which four are the word spam. -/
theorem word_repetition_abusive_witness :
    5 < (pyWords (pyLower "spam spam spam spam spam ok")).length ∧
      is_content_abusive noProfanity "spam spam spam spam spam ok" = true :=
  ⟨by decide,
    word_repetition_abusive noProfanity "spam spam spam spam spam ok" (by decide) (by decide)⟩

/-- C10: the abuse filter returns false on the empty string for every profanity
dictionary, and the submit handler rejects the empty text with the dedicated
empty-message error, leaving the store unchanged. -/
theorem empty_text_never_abusive (pf : String → Bool) (newId : String) (now : Int)
    (rawImage : String) (store : List Post) :
    is_content_abusive pf "" = false ∧
      post_message pf newId now "" rawImage store = (Resp.err "Message is empty", store) :=
  ⟨rfl, rfl⟩

/-- C3: the JSON list returned by `get_messages` is ordered by timestamp in
non-increasing order (newest first). -/
theorem list_active_sorted (now : Int) (store : List Post) :
    List.Pairwise (fun a b : PostView => b.timestamp ≤ a.timestamp) (get_messages now store).2 := by
  have hs : List.Sorted tsGE
      (List.insertionSort tsGE
        (store.filter (fun p => !(decide (p.timestamp < now - MESSAGE_TTL))))) :=
    List.sorted_insertionSort tsGE _
  exact List.Pairwise.map _ (fun a b hab => hab) hs

theorem viewOf_inj {now : Int} {q p : Post} (h : viewOf now q = viewOf now p) : q = p := by
  cases q
  cases p
  simp only [viewOf, PostView.mk.injEq] at h
  obtain ⟨h1, h2, h3, h4, h5, -⟩ := h
  simp only [Post.mk.injEq]
  exact ⟨h1, h2, h3, h4, h5⟩

/-- PostgreSQL branch: a stored post whose age `now - timestamp` exceeds
`MESSAGE_TTL` is removed from storage by the `get_messages` sweep and its JSON
view is absent from the returned list. This is the behaviour the spec states
for both branches; `expired_post_not_purged_sqlite` shows the SQLite branch
breaking it. -/
theorem expired_post_purged (now : Int) (store : List Post) (p : Post)
    (_hmem : p ∈ store) (hexp : MESSAGE_TTL < now - p.timestamp) :
    p ∉ (get_messages now store).1 ∧ viewOf now p ∉ (get_messages now store).2 := by
  have hcut : p.timestamp < now - MESSAGE_TTL := by omega
  have hkept : p ∉ store.filter (fun q => !(decide (q.timestamp < now - MESSAGE_TTL))) := by
    intro hp
    have hc := (List.mem_filter.mp hp).2
    simp [hcut] at hc
  refine ⟨hkept, ?_⟩
  intro hv
  simp only [get_messages] at hv
  rcases List.mem_map.mp hv with ⟨q, hq, hqe⟩
  have hq' : q ∈ store.filter (fun q => !(decide (q.timestamp < now - MESSAGE_TTL))) :=
    (List.mem_insertionSort tsGE).mp hq
  rw [viewOf_inj hqe] at hq'
  exact hkept hq'

/-- Concrete instance of `expired_post_purged`: a post with timestamp 0 read at
one second past the TTL. -/
theorem expired_post_purged_witness :
    (⟨"w3", "old", 0, none, false⟩ : Post) ∈ [(⟨"w3", "old", 0, none, false⟩ : Post)] ∧
      MESSAGE_TTL < 604801 - (⟨"w3", "old", 0, none, false⟩ : Post).timestamp ∧
      (⟨"w3", "old", 0, none, false⟩ : Post) ∉
        (get_messages 604801 [⟨"w3", "old", 0, none, false⟩]).1 ∧
      viewOf 604801 ⟨"w3", "old", 0, none, false⟩ ∉
        (get_messages 604801 [⟨"w3", "old", 0, none, false⟩]).2 :=
  ⟨by decide, by decide,
    (expired_post_purged 604801 [⟨"w3", "old", 0, none, false⟩] ⟨"w3", "old", 0, none, false⟩
      (by decide) (by decide)).1,
    (expired_post_purged 604801 [⟨"w3", "old", 0, none, false⟩] ⟨"w3", "old", 0, none, false⟩
      (by decide) (by decide)).2⟩

/-- C1: code bug in the SQLite branch of `get_messages`. At a store holding an
expired post (timestamp 0) beside a live post (timestamp 604800), read at time
604801, the expired post's age exceeds MESSAGE_TTL, yet serializing the
surviving live row raises AttributeError (`sqlite3.Row` has no `.get`), the
DELETE sweep is rolled back and the endpoint answers 500: the expired post is
still stored and no sequence at all is returned, contradicting the claim, whose
behaviour the PostgreSQL branch and the spec both exhibit. -/
theorem expired_post_not_purged_sqlite :
    MESSAGE_TTL < 604801 - (⟨"old", "stale", 0, none, false⟩ : Post).timestamp ∧
      get_messages_sqlite 604801
        [⟨"old", "stale", 0, none, false⟩, ⟨"new", "fresh", 604800, none, false⟩] =
        ([⟨"old", "stale", 0, none, false⟩, ⟨"new", "fresh", 604800, none, false⟩],
          SqliteGet.serverError) ∧
      (⟨"old", "stale", 0, none, false⟩ : Post) ∈
        (get_messages_sqlite 604801
          [⟨"old", "stale", 0, none, false⟩, ⟨"new", "fresh", 604800, none, false⟩]).1 :=
  ⟨by decide, by decide, by decide⟩

/-- C8: every JSON object returned by `get_messages` carries
`expires_in = max 0 (MESSAGE_TTL - (now - timestamp))`: the TTL minus the age of
the post, floored at zero. -/
theorem expires_in_formula (now : Int) (store : List Post) (v : PostView)
    (hv : v ∈ (get_messages now store).2) :
    v.expires_in = max 0 (MESSAGE_TTL - (now - v.timestamp)) := by
  simp only [get_messages] at hv
  rcases List.mem_map.mp hv with ⟨p, hp, rfl⟩
  rfl

/-- Witness for C8: a two-seconds-old post read at time 5. -/
theorem expires_in_formula_witness :
    viewOf 5 ⟨"w4", "hi", 3, none, false⟩ ∈ (get_messages 5 [⟨"w4", "hi", 3, none, false⟩]).2 ∧
      (viewOf 5 ⟨"w4", "hi", 3, none, false⟩).expires_in =
        max 0 (MESSAGE_TTL - (5 - (viewOf 5 ⟨"w4", "hi", 3, none, false⟩).timestamp)) :=
  ⟨by decide, expires_in_formula 5 [⟨"w4", "hi", 3, none, false⟩] _ (by decide)⟩

/-- C9: `delete_message` always answers ok; afterwards a post is stored iff it was
stored before and its id differs from the deleted one (so the post with the given
id is removed when present and every other post is untouched); deleting an id
that no stored post carries leaves the store unchanged. -/
theorem delete_message_spec (messageId : String) (store : List Post) :
    (delete_message messageId store).1 = Resp.ok ∧
      (∀ p : Post, p ∈ (delete_message messageId store).2 ↔ p ∈ store ∧ p.id ≠ messageId) ∧
      ((∀ p ∈ store, p.id ≠ messageId) → (delete_message messageId store).2 = store) := by
  refine ⟨rfl, ?_, ?_⟩
  · intro p
    simp [delete_message, List.mem_filter]
  · intro h
    simp only [delete_message]
    exact List.filter_eq_self.mpr (fun p hp => by simp [h p hp])

/-- Witness for C9: deleting an id absent from a one-post store answers ok and
changes nothing. -/
theorem delete_message_spec_witness :
    (∀ p ∈ [(⟨"b", "hi", 0, none, false⟩ : Post)], p.id ≠ "a") ∧
      (delete_message "a" [(⟨"b", "hi", 0, none, false⟩ : Post)]).1 = Resp.ok ∧
      (delete_message "a" [(⟨"b", "hi", 0, none, false⟩ : Post)]).2 =
        [(⟨"b", "hi", 0, none, false⟩ : Post)] :=
  ⟨by decide, (delete_message_spec "a" [⟨"b", "hi", 0, none, false⟩]).1,
    (delete_message_spec "a" [⟨"b", "hi", 0, none, false⟩]).2.2 (by decide)⟩

set_option maxRecDepth 10000

/-- C4 counterexample: a submitted text of 281 characters (15 visible characters
followed by 266 blanks) exceeds MAX_LENGTH, yet the handler strips it before the
length check, accepts the request and stores a post. -/
theorem overlength_text_accepted_cex :
    ("hi there friend" ++ String.mk (List.replicate 266 ' ')).length = 281 ∧
      (post_message noProfanity "n1" 0 ("hi there friend" ++ String.mk (List.replicate 266 ' '))
        "" []).1 = Resp.ok ∧
      (post_message noProfanity "n1" 0 ("hi there friend" ++ String.mk (List.replicate 266 ' '))
        "" []).2 = [⟨"n1", "hi there friend", 0, none, false⟩] :=
  ⟨by decide, by decide, by decide⟩

/-- C4 amended: for every submitted text whose length after stripping surrounding
whitespace exceeds MAX_LENGTH (280), `post_message` answers the max-length error
and the store is unchanged. -/
theorem overlength_text_rejected (pf : String → Bool) (newId : String) (now : Int)
    (rawText rawImage : String) (store : List Post)
    (h : MAX_LENGTH < (pyStrip rawText).length) :
    post_message pf newId now rawText rawImage store = (Resp.err "Max 280 characters", store) := by
  have hne : ¬ (pyStrip rawText).data = [] := by
    intro he
    have hz : (pyStrip rawText).length = 0 := by simp [String.length, he]
    omega
  simp only [post_message]
  rw [if_neg hne, if_pos h]

/-- Witness for C4 amended: a run of 281 letters is rejected. -/
theorem overlength_text_rejected_witness :
    MAX_LENGTH < (pyStrip (String.mk (List.replicate 281 'a'))).length ∧
      post_message noProfanity "n1" 0 (String.mk (List.replicate 281 'a')) "" [] =
        (Resp.err "Max 280 characters", []) :=
  ⟨by decide,
    overlength_text_rejected noProfanity "n1" 0 (String.mk (List.replicate 281 'a')) "" []
      (by decide)⟩

/-- C5 counterexample: the abuse filter classifies the submitted text "hello"
followed by five blanks as abusive (the blanks form a constant five-character
window), yet the handler strips the text before filtering, accepts the request
and stores a post. -/
theorem abusive_text_accepted_cex :
    is_content_abusive noProfanity "hello     " = true ∧
      (post_message noProfanity "n1" 0 "hello     " "" []).1 = Resp.ok ∧
      (post_message noProfanity "n1" 0 "hello     " "" []).2 =
        [⟨"n1", "hello", 0, none, false⟩] :=
  ⟨by decide, by decide, by decide⟩

/-- C5 amended: validation applies to the whitespace-stripped text: if the
stripped text is classified abusive the request is rejected with a
human-readable reason and the store is unchanged; if the stripped text is
non-empty, within length and not flagged, a post carrying the stripped text and
the current timestamp is appended to the store. -/
theorem submit_filter_behaviour (pf : String → Bool) (newId : String) (now : Int)
    (rawText rawImage : String) (store : List Post) :
    (is_content_abusive pf (pyStrip rawText) = true →
      ∃ msg, post_message pf newId now rawText rawImage store = (Resp.err msg, store)) ∧
    (¬ (pyStrip rawText).data = [] → ¬ (pyStrip rawText).length > MAX_LENGTH →
      is_content_abusive pf (pyStrip rawText) = false →
      post_message pf newId now rawText rawImage store =
        (Resp.ok, store ++
          [{ id := newId, text := pyStrip rawText, timestamp := now,
             image_url := if (pyStrip rawImage).data = [] then none else some (pyStrip rawImage),
             is_ai := false }])) := by
  constructor
  · intro hab
    have hne : ¬ (pyStrip rawText).data = [] := by
      intro he
      rw [abusive_nil pf he] at hab
      exact Bool.false_ne_true hab
    simp only [post_message]
    rw [if_neg hne]
    by_cases hlen : (pyStrip rawText).length > MAX_LENGTH
    · exact ⟨"Max 280 characters", by rw [if_pos hlen]⟩
    · exact ⟨_, by rw [if_neg hlen, if_pos hab]⟩
  · intro hne hlen hab
    simp only [post_message]
    rw [if_neg hne, if_neg hlen, if_neg (by simp [hab])]

/-- Witness for C5 amended: the stripped text "hello there" passes every check
and is stored with the current timestamp. -/
theorem submit_filter_behaviour_witness :
    ¬ (pyStrip "hello there").data = [] ∧ ¬ (pyStrip "hello there").length > MAX_LENGTH ∧
      is_content_abusive noProfanity (pyStrip "hello there") = false ∧
      post_message noProfanity "n2" 5 "hello there" "" [] =
        (Resp.ok, [⟨"n2", "hello there", 5, none, false⟩]) :=
  ⟨by decide, by decide, by decide,
    by simpa using ((submit_filter_behaviour noProfanity "n2" 5 "hello there" "" []).2
      (by decide) (by decide) (by decide))⟩

/-- C2 counterexample: one news article with a 300-character title yields a
stored post whose text has 315 characters, exceeding MAX_LENGTH. -/
theorem news_post_overlength_cex :
    ∃ p ∈ post_news_to_wall 0 [("n1", String.mk (List.replicate 300 'a'), "http://x.com")] [],
      MAX_LENGTH < p.text.length := by
  decide

/-- C2 amended: posts created by the user-submit handler and by the AI-post
handler have text length at most MAX_LENGTH (280); the automated news job is not
bounded by MAX_LENGTH and can store longer texts. -/
theorem submit_and_ai_posts_bounded (pf : String → Bool) (newId aiId : String)
    (now aiNow : Int) (rawText rawImage generated : String) (store aiStore : List Post) :
    (∀ p ∈ (post_message pf newId now rawText rawImage store).2,
      p ∈ store ∨ p.text.length ≤ MAX_LENGTH) ∧
    (∀ p ∈ (ai_post aiId aiNow generated aiStore).1,
      p ∈ aiStore ∨ p.text.length ≤ MAX_LENGTH) := by
  constructor
  · intro p hp
    by_cases h1 : (pyStrip rawText).data = []
    · simp only [post_message, if_pos h1] at hp
      exact Or.inl hp
    · by_cases h2 : (pyStrip rawText).length > MAX_LENGTH
      · simp only [post_message, if_neg h1, if_pos h2] at hp
        exact Or.inl hp
      · by_cases h3 : is_content_abusive pf (pyStrip rawText) = true
        · simp only [post_message, if_neg h1, if_neg h2, if_pos h3] at hp
          exact Or.inl hp
        · simp only [post_message, if_neg h1, if_neg h2, if_neg h3, List.mem_append,
            List.mem_singleton] at hp
          rcases hp with h | h
          · exact Or.inl h
          · right
            rw [h]
            exact Nat.le_of_not_lt h2
  · intro p hp
    simp only [ai_post, List.mem_append, List.mem_singleton] at hp
    rcases hp with h | h
    · exact Or.inl h
    · right
      rw [h]
      show (if (pyStrip generated).data = [] ∨ (pyStrip generated).length > MAX_LENGTH
        then AI_FALLBACK else pyStrip generated).length ≤ MAX_LENGTH
      by_cases hc : (pyStrip generated).data = [] ∨ (pyStrip generated).length > MAX_LENGTH
      · rw [if_pos hc]
        decide
      · rw [if_neg hc]
        have hlen : ¬ (pyStrip generated).length > MAX_LENGTH := fun hgt => hc (Or.inr hgt)
        exact Nat.le_of_not_lt hlen

/-- Witness for C2 amended: a freshly submitted three-letter post is within the
length bound. -/
theorem submit_and_ai_posts_bounded_witness :
    (⟨"w5", "hey", 0, none, false⟩ : Post) ∈ (post_message noProfanity "w5" 0 "hey" "" []).2 ∧
      ((⟨"w5", "hey", 0, none, false⟩ : Post) ∈ ([] : List Post) ∨
        (⟨"w5", "hey", 0, none, false⟩ : Post).text.length ≤ MAX_LENGTH) :=
  ⟨by decide,
    (submit_and_ai_posts_bounded noProfanity "w5" "w6" 0 0 "hey" "" "x" [] []).1
      ⟨"w5", "hey", 0, none, false⟩ (by decide)⟩

end Wall
